import Mathlib

/-!
Verification of `PythonBasics/ArithmeticOperation.py`, a command-line
arithmetic calculator.

Modelling conventions:
* Python floats are idealized as exact rationals (`ℚ`); the spec's claims are
  stated over mathematical numbers rather than IEEE-754 details, so overflow,
  rounding error, infinities and NaN are outside the model.
* Interrupts (`KeyboardInterrupt`) and end-of-input (`EOFError`) are modelled
  as events at the blocking `input()` calls, the only places the program reads.
* Python's builtin `int(s)` / `float(s)` parsers are modelled by the core
  decimal-numeral grammar (optional sign, digits, optional fraction, optional
  exponent); underscores, surrounding whitespace and `inf`/`nan` spellings are
  outside the modelled grammar.
* `stdout` and `stderr` are modelled as lists of abstract line values, one
  constructor per distinct `print` in the source.
-/

namespace Arith

/-- Exceptions that can arise while computing, mirroring the Python exception
classes raised in `ArithmeticOperation.py`:
* `divisionByZero`: `ZeroDivisionError("Division by zero")` raised in `divide`;
* `moduloByZero`: `ZeroDivisionError("Modulo by zero")` raised in `modulo`;
* `zeroToNegativePower`: the `ZeroDivisionError` Python itself raises for
  `0.0 ** e` with `e < 0`;
* `typeError`: the `TypeError` raised when a function is called with too few
  positional arguments (e.g. `divide()` with no argument). -/
inductive PyErr where
  | divisionByZero
  | moduloByZero
  | zeroToNegativePower
  | typeError
  deriving DecidableEq

/-- `add(*values): return sum(values)`. Python's `sum` is a left fold of `+`
starting from `0`. -/
def add (values : List ℚ) : ℚ :=
  values.foldl (· + ·) 0

/-- `subtract(first, *rest): return functools.reduce(operator.sub, rest, first)`. -/
def subtract (first : ℚ) (rest : List ℚ) : ℚ :=
  rest.foldl (· - ·) first

/-- `multiply(*values): return functools.reduce(operator.mul, values, 1.0)`. -/
def multiply (values : List ℚ) : ℚ :=
  values.foldl (· * ·) 1

/-- The loop of `divide`: sequentially divide the accumulated `result` by each
element of `rest`, raising `ZeroDivisionError("Division by zero")` on a zero
divisor before performing that division. -/
def divide (result : ℚ) : List ℚ → Except PyErr ℚ
  | [] => .ok result
  | r :: rs => if r = 0 then .error .divisionByZero else divide (result / r) rs

/-- A value an operation function can hand back to `main`.  Exact rationals
model floats; `nonRatReal` marks a real result whose exact value is irrational
and hence outside the rational model (a positive base raised to a non-integer
power — `main` still prints it and exits 0); `complex` marks the complex
number Python's `**` returns for a negative base and a non-integer exponent —
`main` then crashes on `round(result)` with an uncaught `TypeError`. -/
inductive PyVal where
  | rat (q : ℚ)
  | nonRatReal
  | complex
  deriving DecidableEq

/-- `power(base, exponent): return base ** exponent`, with Python's float
`**` semantics: a zero base with a negative exponent raises
`ZeroDivisionError`; an integer exponent (denominator 1) gives the exact
rational `base ^ exponent`; a zero base with a positive non-integer exponent
gives `0.0`; a positive base with a non-integer exponent gives an irrational
real (`nonRatReal`); a negative base with a non-integer exponent gives a
complex number (`complex`). -/
def power (base exponent : ℚ) : Except PyErr PyVal :=
  if base = 0 ∧ exponent < 0 then .error .zeroToNegativePower
  else if exponent.den = 1 then .ok (.rat (base ^ exponent.num))
  else if base = 0 then .ok (.rat 0)
  else if 0 < base then .ok .nonRatReal
  else .ok .complex

/-- Python's `a % b` on numbers: the remainder `a - b * ⌊a / b⌋`, which is zero
or has the sign of `b` (floor-division remainder, not C truncation). -/
def pymod (a b : ℚ) : ℚ :=
  a - b * ⌊a / b⌋

/-- `modulo(a, b)`: raise `ZeroDivisionError("Modulo by zero")` if `b == 0`,
else return `a % b`. -/
def modulo (a b : ℚ) : Except PyErr ℚ :=
  if b = 0 then .error .moduloByZero else .ok (pymod a b)

/-- The six operation tokens of `OP_MAP`, in dict insertion order. -/
inductive Op where
  | add
  | sub
  | mul
  | div
  | pow
  | mod
  deriving DecidableEq

/-- The keys of `OP_MAP`, in insertion order, as character lists. -/
def OP_MAP : List (List Char × Op) :=
  [(['a', 'd', 'd'], .add), (['s', 'u', 'b'], .sub), (['m', 'u', 'l'], .mul),
   (['d', 'i', 'v'], .div), (['p', 'o', 'w'], .pow), (['m', 'o', 'd'], .mod)]

/-- Dictionary lookup `OP_MAP[op]` / membership `op in OP_MAP`. -/
def lookupOp (s : List Char) : Option Op :=
  (OP_MAP.find? (fun p => p.1 = s)).map (fun p => p.2)

/-- Decimal digit test. -/
def isDigit (c : Char) : Bool :=
  '0' ≤ c && c ≤ '9'

/-- Numeric value of a digit character. -/
def digitVal (c : Char) : ℕ :=
  c.toNat - ('0').toNat

/-- Value of a digit string read in base 10. -/
def natOfDigits (ds : List Char) : ℕ :=
  ds.foldl (fun a c => 10 * a + digitVal c) 0

/-- Strip one optional leading sign, returning the sign as `±1` and the rest. -/
def parseSign : List Char → ℤ × List Char
  | '+' :: cs => (1, cs)
  | '-' :: cs => (-1, cs)
  | cs => (1, cs)

/-- Modelled from the builtin: Python `int(s)` on the core grammar
`[+-]? digit+`; `none` models `ValueError`. -/
def parseIntToken (s : List Char) : Option ℤ :=
  let p := parseSign s
  if p.2.isEmpty then none
  else if p.2.all isDigit then some (p.1 * natOfDigits p.2) else none

/-- Parse the optional exponent suffix `([eE] [+-]? digit+)?` of a float token,
scaling the already-parsed signed mantissa. -/
def parseExpPart (mant : ℚ) : List Char → Option ℚ
  | [] => some mant
  | e :: cs =>
    if e = 'e' ∨ e = 'E' then
      match parseIntToken cs with
      | some k => some (mant * 10 ^ k)
      | none => none
    else none

/-- Modelled from the builtin: Python `float(s)` on the core grammar
`[+-]? (digit+ [. digit*]? | . digit+) ([eE] [+-]? digit+)?`;
`none` models `ValueError`. -/
def parseFloatToken (s : List Char) : Option ℚ :=
  let p := parseSign s
  let ip := p.2.takeWhile isDigit
  let rest := p.2.dropWhile isDigit
  match rest with
  | '.' :: cs =>
    let fp := cs.takeWhile isDigit
    let rest2 := cs.dropWhile isDigit
    if ip.isEmpty && fp.isEmpty then none
    else parseExpPart (p.1 * (natOfDigits ip + natOfDigits fp / 10 ^ fp.length)) rest2
  | _ => if ip.isEmpty then none else parseExpPart (p.1 * natOfDigits ip) rest

/-- The per-token conversion in `_to_floats`: route to `float(s)` when the
token contains `.` or `e`/`E` (the code tests `"." in s or "e" in s.lower()`),
else to `int(s)`; the final `float(x)` cast is the coercion into `ℚ`. -/
def toFloat1 (s : List Char) : Option ℚ :=
  if s.any (fun c => c = '.' ∨ c = 'e' ∨ c = 'E') then parseFloatToken s
  else (parseIntToken s).map (fun n => (n : ℚ))

/-- `_to_floats(strs)`: convert each token, raising
`ValueError(f"Invalid numeric value: {s!r}")` at the first bad token; the
error carries the offending token. -/
def toFloats : List (List Char) → Except (List Char) (List ℚ)
  | [] => .ok []
  | s :: ss =>
    match toFloat1 s with
    | none => .error s
    | some q => (toFloats ss).map (fun qs => q :: qs)

/-- The first token of the list that `_to_floats` cannot convert, if any. -/
def firstBad : List (List Char) → Option (List Char)
  | [] => none
  | s :: ss => if (toFloat1 s).isNone then some s else firstBad ss

/-- Whitespace test for `str.strip` / `str.split`. -/
def isSpace (c : Char) : Bool :=
  c = ' ' || c = '\t' || c = '\n' || c = '\r'

/-- `str.strip()`: drop surrounding whitespace. -/
def strip (s : List Char) : List Char :=
  ((s.dropWhile isSpace).reverse.dropWhile isSpace).reverse

/-- Accumulator loop for `str.split()`. -/
def splitWsAux : List Char → List Char → List (List Char)
  | [], acc => if acc.isEmpty then [] else [acc.reverse]
  | c :: cs, acc =>
    if isSpace c then
      if acc.isEmpty then splitWsAux cs [] else acc.reverse :: splitWsAux cs []
    else splitWsAux cs (c :: acc)

/-- `str.split()` with no separator: split on whitespace runs, no empty words. -/
def splitWs (s : List Char) : List (List Char) :=
  splitWsAux s []

/-- The formatted numeric result printed by `main`: an integer (no decimal
point), a full rational value, or a printed value whose exact magnitude lies
outside the rational model (`nonRat`, from a `nonRatReal` power result). -/
inductive Output where
  | int (n : ℤ)
  | rat (q : ℚ)
  | nonRat
  deriving DecidableEq

/-- Lines (and prompts) written to standard output. -/
inductive OutLine where
  | interactiveHeader
  | availableOps
  | registryEntry (op : Op)
  | promptOperation
  | promptNumbers
  | unknownOperation
  | blank
  | result (o : Output)
  deriving DecidableEq

/-- Messages written to standard error, one constructor per `print(...,
file=sys.stderr)` in `main`, plus the interpreter tracebacks for the two
exceptions that can escape `main`: the interactive-mode `ValueError`
(carrying the offending token) and the `TypeError` from `round` applied to a
complex `**` result. -/
inductive ErrLine where
  | missingNumbers
  | invalidNumber (tok : List Char)
  | arityExactlyTwo (op : Op)
  | aritySubAtLeastOne
  | arityAtLeastOne (op : Op)
  | errorMsg (e : PyErr)
  | traceback (tok : List Char)
  | tracebackTypeError
  deriving DecidableEq

/-- Whether a `PyErr` is caught by `except ZeroDivisionError` (exit 3) rather
than the catch-all `except Exception` (exit 4). -/
def isZeroDivisionError : PyErr → Bool
  | .divisionByZero => true
  | .moduloByZero => true
  | .zeroToNegativePower => true
  | .typeError => false

/-- The arity validation block of `main`: `pow`/`mod` need exactly two
numbers, `sub` at least one, `add`/`mul` at least one; each violation prints
its message to stderr and exits 2.  (`div` has no check.) -/
def checkArity (op : Op) (n : ℕ) : Option ErrLine :=
  if (op = .pow ∨ op = .mod) ∧ n ≠ 2 then some (.arityExactlyTwo op)
  else if op = .sub ∧ n < 1 then some .aritySubAtLeastOne
  else if (op = .add ∨ op = .mul) ∧ n < 1 then some (.arityAtLeastOne op)
  else none

/-- `result = func(*nums)`: dispatch through `OP_MAP` to the operation
function; calling `subtract`/`divide` with no argument raises `TypeError`
(too few positional arguments), as does `power`/`modulo` off arity two (the
arity check makes those branches unreachable for `pow`/`mod`). -/
def compute (op : Op) (nums : List ℚ) : Except PyErr PyVal :=
  match op, nums with
  | .add, vs => .ok (.rat (add vs))
  | .sub, [] => .error .typeError
  | .sub, f :: rest => .ok (.rat (subtract f rest))
  | .mul, vs => .ok (.rat (multiply vs))
  | .div, [] => .error .typeError
  | .div, f :: rest => (divide f rest).map .rat
  | .pow, [b, e] => power b e
  | .pow, _ => .error .typeError
  | .mod, [a, b] => (modulo a b).map .rat
  | .mod, _ => .error .typeError

/-- The result formatting of `main`: if the result is within `1e-12` of its
rounding, print `int(round(result))`, else print the value itself.  (Python's
`round` is ties-to-even; inside the `1e-12` branch the tie case is impossible,
so `round` agrees with Mathlib's `round` wherever the branch is taken.) -/
def formatResult (r : ℚ) : Output :=
  if |r - (round r : ℚ)| < 1 / 10 ^ 12 then .int (round r) else .rat r

/-- The shared tail of `main` after the numbers are resolved: validate arity,
compute, map `ZeroDivisionError` to exit 3 and any other exception raised by
the operation to exit 4, else format and print the result and exit 0.  A
`complex` result (negative base, non-integer exponent) reaches the formatting
code, where `round(result)` raises `TypeError` outside any `try`, so the
interpreter prints a traceback and exits 1.  Returns
`(exit code, stdout lines, stderr lines)`. -/
def runDispatch (op : Op) (nums : List ℚ) : ℕ × List OutLine × List ErrLine :=
  match checkArity op nums.length with
  | some e => (2, [], [e])
  | none =>
    match compute op nums with
    | .error e =>
      if isZeroDivisionError e then (3, [], [.errorMsg e]) else (4, [], [.errorMsg e])
    | .ok (.rat r) => (0, [.result (formatResult r)], [])
    | .ok .nonRatReal => (0, [.result .nonRat], [])
    | .ok .complex => (1, [], [.tracebackTypeError])

/-- Argument-mode `main`: `argparse` has already constrained `operation` to an
`OP_MAP` key, the numeric tokens are raw strings.  No numbers exits 2;
a `ValueError` from `_to_floats` is caught, printed to stderr and exits 2. -/
def mainArgs (op : Op) (numTokens : List (List Char)) : ℕ × List OutLine × List ErrLine :=
  if numTokens.isEmpty then (2, [], [.missingNumbers])
  else
    match toFloats numTokens with
    | .error t => (2, [], [.invalidNumber t])
    | .ok nums => runDispatch op nums

/-- A console event at an `input()` call: a line of input, or an interrupt /
end-of-input (`KeyboardInterrupt` and `EOFError` are handled identically). -/
inductive InEvent where
  | line (s : List Char)
  | interrupt
  deriving DecidableEq

/-- The banner and registry printed on entering interactive mode. -/
def registryOut : List OutLine :=
  [.interactiveHeader, .availableOps] ++ OP_MAP.map (fun p => .registryEntry p.2)

/-- Interactive-mode `main`, driven by the list of console events (an
exhausted list means end-of-input).  An interrupt or end-of-input at either
prompt prints a blank line and exits 0; an unknown operation prints
`"Unknown operation"` to stdout and exits 2; a `ValueError` from `_to_floats`
is not caught here, so it escapes `main` and the interpreter exits 1 printing
a traceback to stderr. -/
def mainInteractive (events : List InEvent) : ℕ × List OutLine × List ErrLine :=
  match events with
  | [] => (0, registryOut ++ [.promptOperation, .blank], [])
  | .interrupt :: _ => (0, registryOut ++ [.promptOperation, .blank], [])
  | .line opTok :: rest =>
    match lookupOp (strip opTok) with
    | none => (2, registryOut ++ [.promptOperation, .unknownOperation], [])
    | some op =>
      match rest with
      | [] => (0, registryOut ++ [.promptOperation, .promptNumbers, .blank], [])
      | .interrupt :: _ => (0, registryOut ++ [.promptOperation, .promptNumbers, .blank], [])
      | .line numLine :: _ =>
        match toFloats (splitWs (strip numLine)) with
        | .error t =>
          (1, registryOut ++ [.promptOperation, .promptNumbers], [.traceback t])
        | .ok nums =>
          let d := runDispatch op nums
          (d.1, registryOut ++ [.promptOperation, .promptNumbers] ++ d.2.1, d.2.2)

end Arith

namespace Arith

/-- A left fold of `+` over `ℚ` accumulates the list sum onto the seed. -/
theorem foldl_add_sum (l : List ℚ) : ∀ a : ℚ, l.foldl (· + ·) a = a + l.sum := by
  induction l with
  | nil => intro a; simp
  | cons x xs ih =>
    intro a
    rw [List.foldl_cons, ih, List.sum_cons]
    ring

/-- A left fold of `*` over `ℚ` accumulates the list product onto the seed. -/
theorem foldl_mul_prod (l : List ℚ) : ∀ a : ℚ, l.foldl (· * ·) a = a * l.prod := by
  induction l with
  | nil => intro a; simp
  | cons x xs ih =>
    intro a
    rw [List.foldl_cons, ih, List.prod_cons]
    ring

/-- When no divisor in `rest` is zero, `divide` succeeds with the left-fold
quotient. -/
theorem divide_eq_foldl_of_zero_not_mem (rest : List ℚ) :
    ∀ a : ℚ, 0 ∉ rest → divide a rest = .ok (rest.foldl (· / ·) a) := by
  induction rest with
  | nil => intro a _; rfl
  | cons r rs ih =>
    intro a h
    have hr : ¬r = 0 := fun hr => h (by simp [hr])
    rw [divide, if_neg hr, List.foldl_cons]
    exact ih _ (fun hm => h (List.mem_cons_of_mem _ hm))

/-- When some divisor in `rest` is zero, `divide` fails with the
division-by-zero error. -/
theorem divide_eq_error_of_zero_mem (rest : List ℚ) :
    ∀ a : ℚ, 0 ∈ rest → divide a rest = .error .divisionByZero := by
  induction rest with
  | nil => intro a h; cases h
  | cons r rs ih =>
    intro a h
    by_cases hr : r = 0
    · rw [divide, if_pos hr]
    · rw [divide, if_neg hr]
      rcases List.mem_cons.mp h with h0 | h0
      · exact absurd h0.symm hr
      · exact ih _ h0

/-- Claim C1: for every non-empty sequence of numbers, `add` returns their
arithmetic sum and `multiply` returns their product. -/
theorem claim_C1 (vs : List ℚ) (h : vs ≠ []) :
    add vs = vs.sum ∧ multiply vs = vs.prod := by
  constructor
  · rw [add, foldl_add_sum]
    ring
  · rw [multiply, foldl_mul_prod]
    ring

/-- Concrete instance of `claim_C1` at the sequence `[1, 2, 3]`. -/
theorem claim_C1_witness :
    ([(1 : ℚ), 2, 3] ≠ []) ∧
      (add [(1 : ℚ), 2, 3] = [(1 : ℚ), 2, 3].sum ∧
        multiply [(1 : ℚ), 2, 3] = [(1 : ℚ), 2, 3].prod) :=
  ⟨by simp, claim_C1 [1, 2, 3] (by simp)⟩

/-- Claim C2: `subtract` computes the left fold `((a - b) - c) - ...` starting
from the first value, and `divide` computes the analogous left-fold quotient
(here stated with no zero divisor, where `divide` returns normally); on a
single-element sequence (empty `rest`) each returns the first value
unchanged. -/
theorem claim_C2 (a : ℚ) (rest : List ℚ) (h : 0 ∉ rest) :
    subtract a rest = rest.foldl (· - ·) a ∧
      divide a rest = .ok (rest.foldl (· / ·) a) ∧
      subtract a [] = a ∧ divide a [] = .ok a :=
  ⟨rfl, divide_eq_foldl_of_zero_not_mem rest a h, rfl, rfl⟩

/-- Concrete instance of `claim_C2` at first value `10` and rest `[1, 2]`. -/
theorem claim_C2_witness :
    ((0 : ℚ) ∉ [(1 : ℚ), 2]) ∧
      (subtract 10 [(1 : ℚ), 2] = [(1 : ℚ), 2].foldl (· - ·) 10 ∧
        divide 10 [(1 : ℚ), 2] = .ok ([(1 : ℚ), 2].foldl (· / ·) 10) ∧
        subtract 10 [] = 10 ∧ divide 10 [] = .ok 10) :=
  ⟨by norm_num, claim_C2 10 [1, 2] (by norm_num)⟩

/-- Claim C3: whenever a divisor is zero, `divide` fails with the
division-by-zero error (it never performs that division, and the rational
model has no infinity or NaN to produce), and the dispatcher exits with
code 3; whenever the second operand of `modulo` is zero it fails with the
modulo-by-zero error and the dispatcher exits with code 3. -/
theorem claim_C3 (first x : ℚ) (rest : List ℚ) (h : 0 ∈ rest) :
    divide first rest = .error .divisionByZero ∧
      runDispatch .div (first :: rest) = (3, [], [.errorMsg .divisionByZero]) ∧
      modulo x 0 = .error .moduloByZero ∧
      runDispatch .mod [x, 0] = (3, [], [.errorMsg .moduloByZero]) := by
  have hdiv := divide_eq_error_of_zero_mem rest first h
  refine ⟨hdiv, ?_, ?_, ?_⟩
  · simp [runDispatch, checkArity, compute, hdiv, Except.map, isZeroDivisionError]
  · simp [modulo]
  · simp [runDispatch, checkArity, compute, modulo, Except.map, isZeroDivisionError]

/-- Concrete instance of `claim_C3`: `div 1 0` and `mod 10 0`. -/
theorem claim_C3_witness :
    ((0 : ℚ) ∈ [(0 : ℚ)]) ∧
      (divide 1 [(0 : ℚ)] = .error .divisionByZero ∧
        runDispatch .div [(1 : ℚ), 0] = (3, [], [.errorMsg .divisionByZero]) ∧
        modulo (10 : ℚ) 0 = .error .moduloByZero ∧
        runDispatch .mod [(10 : ℚ), 0] = (3, [], [.errorMsg .moduloByZero])) :=
  ⟨by norm_num, claim_C3 1 10 [0] (by norm_num)⟩

end Arith

namespace Arith

/-- Claim C4 (failing input): the arity table requires at least one value for
`div`, but `main` has no arity check for `div`; in interactive mode an empty
number line reaches `divide()` with no argument, which raises `TypeError`,
lands in the catch-all handler and exits with code 4 — not the claimed
`ArityError` with exit code 2. -/
theorem claim_C4 :
    mainInteractive [.line ['d', 'i', 'v'], .line []] =
      (4, registryOut ++ [.promptOperation, .promptNumbers], [.errorMsg .typeError]) := by
  decide

/-- `_to_floats` fails exactly at the first unconvertible token, carrying it. -/
theorem toFloats_eq_error_of_firstBad (toks : List (List Char)) (t : List Char)
    (h : firstBad toks = some t) : toFloats toks = .error t := by
  induction toks with
  | nil => simp [firstBad] at h
  | cons s ss ih =>
    rw [firstBad] at h
    by_cases hs : (toFloat1 s).isNone
    · rw [if_pos hs] at h
      cases hcase : toFloat1 s with
      | none =>
        rw [toFloats, hcase]
        exact congrArg Except.error (Option.some_injective _ h)
      | some q => rw [hcase] at hs; simp at hs
    · rw [if_neg hs] at h
      cases hcase : toFloat1 s with
      | none => rw [hcase] at hs; simp at hs
      | some q => rw [toFloats, hcase, ih h]; rfl

/-- A list with a first unconvertible token is non-empty. -/
theorem firstBad_ne_nil (toks : List (List Char)) (t : List Char)
    (h : firstBad toks = some t) : toks.isEmpty = false := by
  cases toks with
  | nil => simp [firstBad] at h
  | cons s ss => rfl

/-- Claim C5 (counterexample): an unparseable number token in interactive mode
does not exit with code 2 — the `ValueError` escapes `main` (only interrupts
are caught around the prompts) and the interpreter exits with code 1, printing
a traceback. -/
theorem claim_C5_counterexample :
    toFloat1 ['x'] = none ∧
      mainInteractive [.line ['a', 'd', 'd'], .line ['x']] =
        (1, registryOut ++ [.promptOperation, .promptNumbers], [.traceback ['x']]) := by
  decide

/-- Claim C5 (amended): in argument mode any unparseable number token makes
conversion fail with the invalid-number error naming the offending token and
the process exits with code 2; interactive mode converts tokens with the same
conversion function, but there the conversion failure propagates as an
unhandled exception and the interpreter exits with code 1. -/
theorem claim_C5 (op : Op) (toks : List (List Char)) (t u : List Char)
    (opTok numLine : List Char) (op2 : Op) (rest : List InEvent)
    (h : firstBad toks = some t)
    (hop : lookupOp (strip opTok) = some op2)
    (hline : firstBad (splitWs (strip numLine)) = some u) :
    mainArgs op toks = (2, [], [.invalidNumber t]) ∧
      mainInteractive (.line opTok :: .line numLine :: rest) =
        (1, registryOut ++ [.promptOperation, .promptNumbers], [.traceback u]) := by
  constructor
  · rw [mainArgs, if_neg (by simp [firstBad_ne_nil toks t h]),
      toFloats_eq_error_of_firstBad toks t h]
  · have he := toFloats_eq_error_of_firstBad (splitWs (strip numLine)) u hline
    simp [mainInteractive, hop, he]

/-- Concrete instance of `claim_C5`: token `x` in both modes. -/
theorem claim_C5_witness :
    mainArgs .add [['x']] = (2, [], [.invalidNumber ['x']]) ∧
      mainInteractive [.line ['a', 'd', 'd'], .line ['x']] =
        (1, registryOut ++ [.promptOperation, .promptNumbers], [.traceback ['x']]) :=
  claim_C5 .add [['x']] ['x'] ['x'] ['a', 'd', 'd'] ['x'] .add []
    (by decide) (by decide) (by decide)

/-- Claim C6 (counterexample): `power` does not always complete on zero
operands — `pow 0 -1` raises Python's `ZeroDivisionError` for a zero base and
negative exponent, and the process exits with code 3. -/
theorem claim_C6_counterexample :
    power 0 (-1) = .error .zeroToNegativePower ∧
      mainArgs .pow [['0'], ['-', '1']] = (3, [], [.errorMsg .zeroToNegativePower]) := by
  constructor
  · norm_num [power]
  · decide

/-- Claim C6 (amended): on arity-valid inputs containing zeros, `add`,
`subtract` and `multiply` complete without error (exit 0); a `pow` pair
containing a zero completes without error except when its base is zero and
its exponent negative, in which case it fails with the zero-division exit
code 3. -/
theorem claim_C6 (nums : List ℚ) (b e : ℚ) (h : nums ≠ []) (h0 : 0 ∈ nums)
    (hz : b = 0 ∨ e = 0) :
    (runDispatch .add nums).1 = 0 ∧
      (runDispatch .sub nums).1 = 0 ∧
      (runDispatch .mul nums).1 = 0 ∧
      (¬(b = 0 ∧ e < 0) → (runDispatch .pow [b, e]).1 = 0) ∧
      ((b = 0 ∧ e < 0) →
        runDispatch .pow [b, e] = (3, [], [.errorMsg .zeroToNegativePower])) := by
  obtain ⟨f, rest, rfl⟩ := List.exists_cons_of_ne_nil h
  refine ⟨?_, ?_, ?_, ?_, ?_⟩
  · simp [runDispatch, checkArity, compute]
  · simp [runDispatch, checkArity, compute]
  · simp [runDispatch, checkArity, compute]
  · intro hbe
    rcases hz with hb | he
    · subst hb
      have hen : ¬e < 0 := fun hlt => hbe ⟨rfl, hlt⟩
      by_cases hd : e.den = 1
      · simp [runDispatch, checkArity, compute, power, hen, hd]
      · simp [runDispatch, checkArity, compute, power, hen, hd]
    · subst he
      have hd : (0 : ℚ).den = 1 := rfl
      simp [runDispatch, checkArity, compute, power, hbe, hd]
  · intro hbe
    simp [runDispatch, checkArity, compute, power, hbe, isZeroDivisionError]

/-- Concrete instance of `claim_C6` at `nums = [0]`, `b = 0`, `e = -1`. -/
theorem claim_C6_witness :
    ([(0 : ℚ)] ≠ []) ∧ ((0 : ℚ) ∈ [(0 : ℚ)]) ∧ ((0 : ℚ) = 0 ∨ (-1 : ℚ) = 0) ∧
      ((runDispatch .add [(0 : ℚ)]).1 = 0 ∧
        (runDispatch .sub [(0 : ℚ)]).1 = 0 ∧
        (runDispatch .mul [(0 : ℚ)]).1 = 0 ∧
        (¬((0 : ℚ) = 0 ∧ (-1 : ℚ) < 0) → (runDispatch .pow [(0 : ℚ), -1]).1 = 0) ∧
        (((0 : ℚ) = 0 ∧ (-1 : ℚ) < 0) →
          runDispatch .pow [(0 : ℚ), -1] = (3, [], [.errorMsg .zeroToNegativePower]))) :=
  ⟨by simp, by simp, Or.inl rfl, claim_C6 [0] 0 (-1) (by simp) (by simp) (Or.inl rfl)⟩

end Arith

namespace Arith

/-- Within half a unit of an integer, rounding returns that integer. -/
theorem round_eq_of_abs_sub_lt_half (r : ℚ) (n : ℤ) (h : |r - (n : ℚ)| < 1 / 2) :
    round r = n := by
  rw [round_eq, Int.floor_eq_iff]
  rw [abs_lt] at h
  constructor
  · linarith [h.1]
  · linarith [h.2]

/-- Claim C7: if the computed result is within `1e-12` of the nearest integer,
it is formatted as that integer (printed without a decimal point); otherwise
the full value is formatted as-is. -/
theorem claim_C7 (r : ℚ) (n : ℤ) :
    (|r - (n : ℚ)| < 1 / 10 ^ 12 → formatResult r = .int n) ∧
      ((∀ m : ℤ, 1 / 10 ^ 12 ≤ |r - (m : ℚ)|) → formatResult r = .rat r) := by
  constructor
  · intro h
    have hr : round r = n := round_eq_of_abs_sub_lt_half r n (lt_of_lt_of_le h (by norm_num))
    rw [formatResult, hr, if_pos h]
  · intro h
    rw [formatResult, if_neg (not_lt.mpr (h (round r)))]

/-- Concrete instances of `claim_C7`: `3` formats as the integer `3`, and
`1/2` (not within `1e-12` of any integer) formats as the full value. -/
theorem claim_C7_witness :
    formatResult 3 = .int 3 ∧ formatResult (1 / 2) = .rat (1 / 2) := by
  constructor
  · exact (claim_C7 3 3).1 (by norm_num)
  · refine (claim_C7 (1 / 2) 0).2 ?_
    intro m
    have hc : (1 : ℚ) / 10 ^ 12 ≤ 1 / 2 := by norm_num
    rcases le_or_lt (m : ℚ) 0 with hm | hm
    · have h2 : (1 : ℚ) / 2 - (m : ℚ) ≤ |1 / 2 - (m : ℚ)| := le_abs_self _
      linarith
    · have h0 : (1 : ℚ) ≤ (m : ℚ) := by
        have hz : (0 : ℤ) < m := by exact_mod_cast hm
        have h1 : (1 : ℤ) ≤ m := by omega
        exact_mod_cast h1
      have h2 : (m : ℚ) - 1 / 2 ≤ |1 / 2 - (m : ℚ)| := by
        rw [abs_sub_comm]
        exact le_trans (by linarith) (le_abs_self _)
      linarith

/-- On every dispatcher outcome, a nonzero exit writes nothing to stdout and
one message to stderr, and a zero exit writes nothing to stderr. -/
theorem runDispatch_streams (op : Op) (nums : List ℚ) :
    ((runDispatch op nums).1 ≠ 0 →
      (runDispatch op nums).2.1 = [] ∧ (runDispatch op nums).2.2 ≠ []) ∧
      ((runDispatch op nums).1 = 0 → (runDispatch op nums).2.2 = []) := by
  cases hc : checkArity op nums.length with
  | some e => simp [runDispatch, hc]
  | none =>
    cases hr : compute op nums with
    | error e => by_cases hz : isZeroDivisionError e <;> simp [runDispatch, hc, hr, hz]
    | ok v =>
      cases v with
      | rat q => simp [runDispatch, hc, hr]
      | nonRatReal => simp [runDispatch, hc, hr]
      | complex => simp [runDispatch, hc, hr]

/-- Claim C8 (counterexample): the interactive `UnknownOperation` error is not
reported to standard error — the code prints `"Unknown operation"` to standard
output and exits 2 with an empty standard error. -/
theorem claim_C8_counterexample :
    lookupOp ['x'] = none ∧
      mainInteractive [.line ['x']] =
        (2, registryOut ++ [.promptOperation, .unknownOperation], []) := by
  decide

/-- Claim C8 (amended): in argument mode every failing run reports its error
to standard error and writes nothing to standard output, and a successful run
writes no error; in interactive mode errors arising after the prompts are
reported to standard error while standard output carries only the registry
and prompts, except `UnknownOperation`, whose message is printed to standard
output with standard error left empty. -/
theorem claim_C8 (op : Op) (toks : List (List Char)) (opTok opTok2 numLine : List Char)
    (op2 : Op) (rest rest2 : List InEvent)
    (h : lookupOp (strip opTok) = none)
    (hop : lookupOp (strip opTok2) = some op2) :
    ((mainArgs op toks).1 ≠ 0 →
      (mainArgs op toks).2.1 = [] ∧ (mainArgs op toks).2.2 ≠ []) ∧
      ((mainArgs op toks).1 = 0 → (mainArgs op toks).2.2 = []) ∧
      mainInteractive (.line opTok :: rest) =
        (2, registryOut ++ [.promptOperation, .unknownOperation], []) ∧
      ((mainInteractive (.line opTok2 :: .line numLine :: rest2)).1 ≠ 0 →
        (mainInteractive (.line opTok2 :: .line numLine :: rest2)).2.2 ≠ [] ∧
          (mainInteractive (.line opTok2 :: .line numLine :: rest2)).2.1 =
            registryOut ++ [.promptOperation, .promptNumbers]) := by
  refine ⟨?_, ?_, ?_, ?_⟩
  · intro hne
    by_cases ht : toks.isEmpty
    · simp [mainArgs, ht]
    · cases hf : toFloats toks with
      | error t => simp [mainArgs, ht, hf]
      | ok nums =>
        simp only [mainArgs, ht, if_false, Bool.false_eq_true, hf] at hne ⊢
        exact (runDispatch_streams op nums).1 hne
  · intro hz
    by_cases ht : toks.isEmpty
    · simp [mainArgs, ht] at hz
    · cases hf : toFloats toks with
      | error t => simp [mainArgs, ht, hf] at hz
      | ok nums =>
        simp only [mainArgs, ht, if_false, Bool.false_eq_true, hf] at hz ⊢
        exact (runDispatch_streams op nums).2 hz
  · simp [mainInteractive, h]
  · intro hne
    cases hf : toFloats (splitWs (strip numLine)) with
    | error t => simp [mainInteractive, hop, hf]
    | ok nums =>
      simp only [mainInteractive, hop, hf] at hne ⊢
      have hs := (runDispatch_streams op2 nums).1 hne
      exact ⟨hs.2, by simp [hs.1]⟩

/-- Concrete instances of `claim_C8`, exercising every reporting mode
non-vacuously: a failing argument-mode run (`div 1 0`, exit 3), a successful
argument-mode run (`add 1`), the interactive unknown operation `x`, and a
failing interactive run (`div` over the line `1 0`). -/
theorem claim_C8_witness :
    ((mainArgs .div [['1'], ['0']]).2.1 = [] ∧ (mainArgs .div [['1'], ['0']]).2.2 ≠ []) ∧
      (mainArgs .add [['1']]).2.2 = [] ∧
      mainInteractive [.line ['x']] =
        (2, registryOut ++ [.promptOperation, .unknownOperation], []) ∧
      ((mainInteractive [.line ['d', 'i', 'v'], .line ['1', ' ', '0']]).2.2 ≠ [] ∧
        (mainInteractive [.line ['d', 'i', 'v'], .line ['1', ' ', '0']]).2.1 =
          registryOut ++ [.promptOperation, .promptNumbers]) := by
  have h1 := claim_C8 .div [['1'], ['0']] ['x'] ['d', 'i', 'v'] ['1', ' ', '0'] .div [] []
    (by decide) (by decide)
  have h2 := claim_C8 .add [['1']] ['x'] ['a', 'd', 'd'] ['2'] .add [] []
    (by decide) (by decide)
  exact ⟨h1.1 (by decide), h2.2.1 (by decide), h1.2.2.1, h1.2.2.2 (by decide)⟩

/-- Claim C9: end-of-input or an interrupt at either interactive prompt
terminates with exit code 0 and nothing written to standard error (a blank
line is printed, no error message). -/
theorem claim_C9 (rest : List InEvent) (opTok : List Char) (op : Op)
    (hop : lookupOp (strip opTok) = some op) :
    mainInteractive [] = (0, registryOut ++ [.promptOperation, .blank], []) ∧
      mainInteractive (.interrupt :: rest) =
        (0, registryOut ++ [.promptOperation, .blank], []) ∧
      mainInteractive (.line opTok :: .interrupt :: rest) =
        (0, registryOut ++ [.promptOperation, .promptNumbers, .blank], []) ∧
      mainInteractive [.line opTok] =
        (0, registryOut ++ [.promptOperation, .promptNumbers, .blank], []) := by
  refine ⟨rfl, rfl, ?_, ?_⟩ <;> simp [mainInteractive, hop]

/-- Concrete instance of `claim_C9` with operation token `add`. -/
theorem claim_C9_witness :
    mainInteractive [] = (0, registryOut ++ [.promptOperation, .blank], []) ∧
      mainInteractive [.interrupt] =
        (0, registryOut ++ [.promptOperation, .blank], []) ∧
      mainInteractive [.line ['a', 'd', 'd'], .interrupt] =
        (0, registryOut ++ [.promptOperation, .promptNumbers, .blank], []) ∧
      mainInteractive [.line ['a', 'd', 'd']] =
        (0, registryOut ++ [.promptOperation, .promptNumbers, .blank], []) :=
  claim_C9 [] ['a', 'd', 'd'] .add (by decide)

/-- Claim C10: for `b ≠ 0`, `modulo a b` returns Python's floor-division
remainder `a - b * ⌊a / b⌋`, which is either zero or has the same sign as
`b`, and whose absolute value is strictly less than `|b|`. -/
theorem claim_C10 (a b : ℚ) (hb : b ≠ 0) :
    modulo a b = .ok (pymod a b) ∧
      (pymod a b = 0 ∨ (0 < pymod a b ∧ 0 < b) ∨ (pymod a b < 0 ∧ b < 0)) ∧
      |pymod a b| < |b| := by
  have hf : pymod a b = b * Int.fract (a / b) := by
    rw [pymod, Int.fract, mul_sub, mul_div_cancel₀ a hb]
  have hf0 : 0 ≤ Int.fract (a / b) := Int.fract_nonneg _
  have hf1 : Int.fract (a / b) < 1 := Int.fract_lt_one _
  refine ⟨by simp [modulo, hb], ?_, ?_⟩
  · rcases eq_or_lt_of_le hf0 with heq | hlt
    · left
      rw [hf, ← heq, mul_zero]
    · rcases lt_or_gt_of_ne hb with hneg | hpos
      · right; right
        exact ⟨by rw [hf]; exact mul_neg_of_neg_of_pos hneg hlt, hneg⟩
      · right; left
        exact ⟨by rw [hf]; exact mul_pos hpos hlt, hpos⟩
  · rw [hf, abs_mul, abs_of_nonneg hf0]
    exact mul_lt_of_lt_one_right (abs_pos.mpr hb) hf1

/-- Concrete instance of `claim_C10` at `a = 10`, `b = 3`. -/
theorem claim_C10_witness :
    ((3 : ℚ) ≠ 0) ∧
      (modulo (10 : ℚ) 3 = .ok (pymod 10 3) ∧
        (pymod (10 : ℚ) 3 = 0 ∨ (0 < pymod (10 : ℚ) 3 ∧ (0 : ℚ) < 3) ∨
          (pymod (10 : ℚ) 3 < 0 ∧ (3 : ℚ) < 0)) ∧
        |pymod (10 : ℚ) 3| < |(3 : ℚ)|) :=
  ⟨by norm_num, claim_C10 10 3 (by norm_num)⟩

end Arith
